import Mathlib

/-!
Shallow embedding of the ink backup tool (katie-jones/ink) for verification.

The repository holds two versions of the program:
  - source/ink.py : the installed module (namespace `Ink` below);
  - ink.py        : an older copy at the repository root (namespace `InkRoot`).

Side effects (shell invocations, directory creation and removal, renames,
symlink manipulation, the final history write) are recorded in a trace, and
Python exceptions are modelled with an `Except` result.  External state that
the program only reads (the mount table, the filesystem, exit codes of the
external tools, the clock) is an oracle record `Env`.  The single unbounded
loop of the program (the name-collision loop in _get_backup_folder_basename)
is given a fuel bound in `Env`; running out of fuel is reported as the
distinguished error `PyErr.nonterm`, standing for nontermination of the
source loop.
-/

set_option autoImplicit false

universe u

/-- Python exception values that the embedded code can raise. -/
inductive PyErr where
  | runtimeError (msg : String)
  | attributeError (attr : String)
  | typeError (msg : String)
  | nonterm
  deriving DecidableEq, Repr

/-- Observable side effects of the program, in order of occurrence. -/
inductive Event where
  | shell (cmdline : String)
  | mkdir (path : String)
  | rmtree (path : String)
  | rename (src dst : String)
  | unlink (path : String)
  | symlink (target linkPath : String)
  | historyWrite (entries : List (String × Int))
  deriving DecidableEq, Repr

/-- Result of running a piece of embedded code: the trace of the effects it
performed (also the ones before an exception) and its outcome. -/
structure M (α : Type u) where
  trace : List Event
  result : Except PyErr α

def M.pure {α : Type u} (a : α) : M α := ⟨[], .ok a⟩

def M.bind {α β : Type u} (x : M α) (f : α → M β) : M β :=
  match x.result with
  | .error e => ⟨x.trace, .error e⟩
  | .ok a => ⟨x.trace ++ (f a).trace, (f a).result⟩

instance : Monad M where
  pure := M.pure
  bind := M.bind

/-- Record one effect. -/
def emit (e : Event) : M Unit := ⟨[e], .ok ()⟩

/-- Raise a Python exception. -/
def raiseErr {α : Type} (e : PyErr) : M α := ⟨[], .error e⟩

def except_ok {α : Type} : Except PyErr α → Bool
  | .ok _ => true
  | .error _ => false

/-- A date and time, as produced by datetime.datetime.now(). -/
structure LocalTime where
  year : Nat
  month : Nat
  day : Nat
  hour : Nat
  minute : Nat
  deriving DecidableEq, Repr

def pad2 (n : Nat) : String := if n < 10 then "0" ++ toString n else toString n

def pad4 (n : Nat) : String :=
  if n < 10 then "000" ++ toString n
  else if n < 100 then "00" ++ toString n
  else if n < 1000 then "0" ++ toString n
  else toString n

/-- strftime with the format string "%Y-%m-%dT%H:%M" of
_get_backup_folder_basename: an ISO-8601 local timestamp to the minute. -/
def strftime_iso_minute (t : LocalTime) : String :=
  pad4 t.year ++ "-" ++ pad2 t.month ++ "-" ++ pad2 t.day ++ "T" ++
    pad2 t.hour ++ ":" ++ pad2 t.minute

/-- External world the program reads: tool exit codes (indexed by the joined
command line handed to the shell), the mount table, filesystem queries, the
clock, and fuel for the one unbounded loop of the source. -/
structure Env where
  exitCode : String → Int
  isMounted : String → Bool
  isdir : String → Bool
  pathExists : String → Bool
  linkExists : String → Bool
  realpath : String → String
  now : LocalTime
  time : Int
  fuel : Nat

/-- The single string handed to the shell: run_shell_command joins the
argument list with single spaces (subprocess.Popen with shell=True). -/
def join_args (command : List String) : String := String.intercalate " " command

/-- run_shell_command (identical in both files): run the joined command line
through a shell, then raise RuntimeError with the given message when the exit
status is nonzero. -/
def run_shell_command (env : Env) (command : List String) (error_string : String) : M Unit :=
  ⟨[.shell (join_args command)],
   if env.exitCode (join_args command) = 0 then .ok () else .error (.runtimeError error_string)⟩

/-- Whether a path begins with a slash. -/
def starts_slash (s : String) : Bool :=
  match s.data with
  | c :: _ => c == '/'
  | [] => false

/-- Whether a path ends with a slash. -/
def ends_slash (s : String) : Bool :=
  match s.data.getLast? with
  | some c => c == '/'
  | none => false

/-- os.path.flatten for two components, as used by the source. -/
def ospath_join (a b : String) : String :=
  if starts_slash b then b
  else if a = "" then b
  else if ends_slash a then a ++ b
  else a ++ "/" ++ b

/-- os.path.dirname: everything up to the last slash, with trailing slashes
stripped from the head unless the head is all slashes. -/
def ospath_dirname (p : String) : String :=
  if p.data.contains '/' then
    let head := (p.data.reverse.dropWhile (fun c => !(c == '/'))).reverse
    if head.all (fun c => c == '/') then String.mk head
    else String.mk (head.reverse.dropWhile (fun c => c == '/')).reverse
  else ""

/-- Split a character list at slashes. -/
def split_slash_aux : List Char → List Char → List String
  | [], acc => [String.mk acc.reverse]
  | c :: cs, acc =>
    if c == '/' then String.mk acc.reverse :: split_slash_aux cs []
    else split_slash_aux cs (c :: acc)

/-- Components of a path, ignoring empty segments (the inputs the source
passes are normalized absolute paths). -/
def path_parts (p : String) : List String :=
  (split_slash_aux p.data []).filter (fun s => s ≠ "")

/-- Drop the longest common prefix of two component lists, returning the two
remainders. -/
def drop_common : List String → List String → (List String × List String)
  | a :: as, b :: bs => if a = b then drop_common as bs else (a :: as, b :: bs)
  | as, bs => (as, bs)

/-- os.path.relpath over normalized absolute paths: climb out of what remains
of start, then descend into what remains of path. -/
def ospath_relpath (path start : String) : String :=
  let rest := drop_common (path_parts path) (path_parts start)
  let segs := rest.2.map (fun _ => "..") ++ rest.1
  if segs = [] then "." else String.intercalate "/" segs

/-- Longest common prefix of two component lists. -/
def common_parts : List String → List String → List String
  | a :: as, b :: bs => if a = b then a :: common_parts as bs else []
  | _, _ => []

/-- path_is_parent from source/ink.py: both paths are resolved through
os.path.realpath and the common path of parent and child is compared against
the parent alone, i.e. the parent is a componentwise prefix of the child. -/
def path_is_parent (env : Env) (parent_path child_path : String) : Bool :=
  let p := path_parts (env.realpath parent_path)
  let c := path_parts (env.realpath child_path)
  decide (common_parts p c = p)

/-- Candidate folder names tried by _get_backup_folder_basename: the base
name first, then base_1, base_2, and so on. -/
def nth_candidate (base : String) (n : Nat) : String :=
  if n = 0 then base else base ++ "_" ++ toString n

/-- The name-collision loop of _get_backup_folder_basename: os.makedirs
succeeds exactly when the leaf does not yet exist, and FileExistsError moves
on to the next candidate.  The source loop is while(1); fuel bounds it here. -/
def find_free_name (ex : String → Bool) (base : String) : Nat → Nat → Option String
  | 0, _ => none
  | fuel + 1, n =>
    if ex (nth_candidate base n) then find_free_name ex base fuel (n + 1)
    else some (nth_candidate base n)

/-- _get_backup_folder_basename (identical in both files): the base name is
backup_folder joined with the folder prefix followed by the current local
time in ISO-8601 format to the minute; candidates with numeric suffixes are
tried until os.makedirs succeeds. -/
def alloc_backup_basename (env : Env) (backup_folder fold_pref : String) : M String :=
  let base := ospath_join backup_folder (fold_pref ++ strftime_iso_minute env.now)
  match find_free_name env.pathExists base env.fuel 0 with
  | some nm => ⟨[.mkdir nm], .ok nm⟩
  | none => ⟨[], .error .nonterm⟩

/-- The pure part of _get_backup_folder_name: when rebase_root is set, the
write target is the basename extended with to_backup stripped of its leading
slash (to_backup is validated non-empty, so indexing its first character is
safe); otherwise the basename itself. -/
def rebase_target (rebase_root : Bool) (to_backup base : String) : String :=
  if rebase_root then
    if starts_slash to_backup then ospath_join base (String.mk (to_backup.data.drop 1))
    else ospath_join base to_backup
  else base

def with_trailing_slash (p : String) : String := if ends_slash p then p else p ++ "/"

/-- _get_backup_folder_name (identical in both files): compute the write
target by the rebase rule, create it with os.makedirs (FileExistsError is
swallowed), and return it with a trailing slash. -/
def make_target_folder (env : Env) (rebase_root : Bool) (to_backup base : String) : M String :=
  let nf := rebase_target rebase_root to_backup base
  ⟨if env.pathExists nf then [] else [.mkdir nf], .ok (with_trailing_slash nf)⟩

/-- _replace_symlink (identical in both files): os.unlink the link path,
swallowing FileNotFoundError, then create a link at the same path whose
target is os.path.relpath(new_backup_folder_base, dirname(link path)). -/
def _replace_symlink (env : Env) (link newBase : String) : M Unit :=
  ⟨(if env.linkExists link then [.unlink link] else []) ++
    [.symlink (ospath_relpath newBase (ospath_dirname link)) link], .ok ()⟩

namespace Ink

/-- PartitionManager state from source/ink.py: the mount point and the three
optional partition identifiers given to the constructor. -/
structure PartitionManager where
  mount_point : String
  uuid : String
  label : String
  dev : String
  deriving DecidableEq, Repr

/-- Outcome token _mount_status set by mount_partition. -/
inductive MountStatus where
  | newlyMounted
  | alreadyMounted
  deriving DecidableEq, Repr

/-- The mount command assembled by mount_partition: identification by UUID,
then label, then device, else none (fstab), followed by the mount point. -/
def mount_command (pm : PartitionManager) : List String :=
  (["mount"] ++
    (if pm.uuid.length > 0 then ["-U", pm.uuid]
     else if pm.label.length > 0 then ["-L", pm.label]
     else if pm.dev.length > 0 then [pm.dev]
     else [])) ++ [pm.mount_point]

/-- PartitionManager.mount_partition: status starts as ALREADY_MOUNTED; with
no mount point or an already mounted partition nothing happens; otherwise the
mount tool runs (raising RuntimeError on nonzero exit, in which case the
status was never updated) and on success the status becomes NEWLY_MOUNTED. -/
def mount_partition (env : Env) (pm : PartitionManager) : M MountStatus :=
  if pm.mount_point.length = 0 then ⟨[], .ok .alreadyMounted⟩
  else if env.isMounted pm.mount_point then ⟨[], .ok .alreadyMounted⟩
  else M.bind (run_shell_command env (mount_command pm) "Mounting backup disk failed.")
    (fun _ => ⟨[], .ok .newlyMounted⟩)

/-- PartitionManager.unmount_partition_if_needed: run the unmount tool only
when the status token says this object mounted the partition itself. -/
def unmount_partition_if_needed (env : Env) (pm : PartitionManager) (st : MountStatus) : M Unit :=
  match st with
  | .newlyMounted => run_shell_command env ["umount", pm.mount_point] "Unmounting backup disk failed."
  | .alreadyMounted => ⟨[], .ok ()⟩

/-- BackupInstance attributes assigned by __init__ in source/ink.py (lines
136-166).  backup_folder is os.path.flatten(mount_point, config backup_folder).
Note that __init__ assigns no _mount_point attribute and the class defines no
_get_base_command method; accesses to those raise AttributeError below.
folderPrefix stands for the _folder_prefix attribute. -/
structure BackupInstance where
  name : String
  last_backup : Int
  pm : PartitionManager
  backup_folder : String
  to_backup : String
  backup_type : String
  exclude_file : String
  link_name : String
  folderPrefix : String
  frequency : Int
  rebase_root : Bool
  rsync_log_file : String
  force_backup : Bool
  cross_filesystems : Bool

/-- BackupInstance._backup_outdated: the last backup is outdated when
time.time() minus it strictly exceeds the configured frequency. -/
def _backup_outdated (env : Env) (b : BackupInstance) : Bool :=
  decide (env.time - b.last_backup > b.frequency)

/-- BackupInstance._get_base_rsync_command: rsync -a, with -x appended unless
cross_filesystems is enabled. -/
def _get_base_rsync_command (b : BackupInstance) : List String :=
  ["rsync", "-a"] ++ (if !b.cross_filesystems then ["-x"] else [])

/-- BackupInstance._add_exclude_and_log_files from source/ink.py: append the
log-file and exclude-from arguments when configured and present, then read
self._mount_point — an attribute __init__ never assigns on BackupInstance
(the mount point lives on the PartitionManager), so the access raises
AttributeError.  Were the attribute present, the branch guarded by
path_is_parent would call list.extend with two arguments, a TypeError. -/
def _add_exclude_and_log_files (env : Env) (b : BackupInstance) (shell_command : List String) :
    M (List String) :=
  let c1 := if b.rsync_log_file.length > 0 && env.pathExists (ospath_dirname b.rsync_log_file)
    then shell_command ++ ["--log-file", b.rsync_log_file] else shell_command
  let c2 := if b.exclude_file.length > 0 && env.pathExists b.exclude_file
    then c1 ++ ["--exclude-from=" ++ b.exclude_file] else c1
  M.bind (raiseErr (.attributeError "_mount_point") : M String) (fun mp =>
    if mp.length > 0 && path_is_parent env b.to_backup mp then
      raiseErr (.typeError "extend() takes exactly one argument (2 given)")
    else M.pure c2)

/-- BackupInstance._make_backups_common from source/ink.py: allocate the new
folder, then call self._get_base_command() — the class only defines
_get_base_rsync_command, so the lookup raises AttributeError.  The remainder
(exclude assembly, the per-strategy hints, the rsync run, the symlink
replacement) is written out below it but is unreachable. -/
def _make_backups_common (env : Env) (b : BackupInstance) : M Unit := do
  let newBase ← alloc_backup_basename env b.backup_folder b.folderPrefix
  let newFolder ← make_target_folder env b.rebase_root b.to_backup newBase
  let link := ospath_join b.backup_folder b.link_name
  let baseCmd ← (raiseErr (.attributeError "_get_base_command") : M (List String))
  let cmd ← _add_exclude_and_log_files env b baseCmd
  let cmd ← (if env.isdir link then
      if b.backup_type = "incremental" then M.pure (cmd ++ ["--link-dest=" ++ link])
      else if b.backup_type = "nolinks" then do
        let prevBase := env.realpath link
        emit (.rmtree newBase)
        emit (.rename prevBase newBase)
        emit (.mkdir (prevBase ++ "_bak"))
        let prevFolder ← make_target_folder env b.rebase_root b.to_backup (prevBase ++ "_bak")
        M.pure (cmd ++ ["-b"] ++ ["--backup-dir", prevFolder])
      else M.pure cmd
    else M.pure cmd)
  let cmd := if b.to_backup = "/" then cmd ++ [b.to_backup, newFolder]
    else cmd ++ [b.to_backup ++ "/", newFolder]
  run_shell_command env cmd "Shell command failed."
  _replace_symlink env link newBase

/-- BackupInstance._make_backups_snapshot from source/ink.py: the target is
backup_folder itself with a trailing slash; the command is the base rsync
command plus --delete, then _add_exclude_and_log_files — which raises
AttributeError on self._mount_point before any rsync invocation. -/
def _make_backups_snapshot (env : Env) (b : BackupInstance) : M Unit := do
  let newFolder := with_trailing_slash b.backup_folder
  let cmd ← _add_exclude_and_log_files env b (_get_base_rsync_command b ++ ["--delete"])
  let cmd := if b.to_backup = "/" then cmd ++ [b.to_backup, newFolder]
    else cmd ++ [b.to_backup ++ "/", newFolder]
  run_shell_command env cmd "Shell command failed."

/-- BackupInstance._make_backups: dispatch on backup_type; an unrecognized
type only logs. -/
def _make_backups (env : Env) (b : BackupInstance) : M Unit :=
  if b.backup_type = "incremental" ∨ b.backup_type = "nolinks" ∨ b.backup_type = "full" then
    _make_backups_common env b
  else if b.backup_type = "snapshot" then _make_backups_snapshot env b
  else M.pure ()

/-- BackupInstance.run with the _make_backups step abstracted as the argument
make (run does not inspect it): when the backup is forced or outdated, mount,
try make — any exception from it is caught and logged, leaving backups_made
False — and unmount-if-needed in the finally block; otherwise do nothing.
Exceptions from mount_partition and from the finally block propagate. -/
def runWith (env : Env) (b : BackupInstance) (make : M Unit) : M Bool :=
  if b.force_backup || _backup_outdated env b then
    M.bind (mount_partition env b.pm) (fun st =>
      let made : Bool := except_ok make.result
      M.bind (⟨make.trace, .ok ()⟩ : M Unit) (fun _ =>
        M.bind (unmount_partition_if_needed env b.pm st) (fun _ => M.pure made)))
  else M.pure false

/-- BackupInstance.run from source/ink.py. -/
def BackupInstance.run (env : Env) (b : BackupInstance) : M Bool :=
  runWith env b (_make_backups env b)

/-- ConfigParser.read_dict on the history: set or overwrite one section. -/
def hist_set (h : List (String × Int)) (k : String) (v : Int) : List (String × Int) :=
  match h with
  | [] => [(k, v)]
  | (k0, v0) :: rest => if k0 = k then (k, v) :: rest else (k0, v0) :: hist_set rest k v

/-- The loop of BackupManager.run: run each instance in configuration order;
when run() returns True, record int(time.time()) for its section. -/
def manager_run_loop (env : Env) : List BackupInstance → List (String × Int) → M (List (String × Int))
  | [], hist => M.pure hist
  | b :: rest, hist =>
    M.bind (BackupInstance.run env b) (fun made =>
      manager_run_loop env rest (if made then hist_set hist b.name env.time else hist))

/-- BackupManager.run from source/ink.py: loop over the instances, then write
the updated history file once. -/
def BackupManager.run (env : Env) (insts : List BackupInstance) (hist : List (String × Int)) :
    M Unit :=
  M.bind (manager_run_loop env insts hist) (fun h => emit (.historyWrite h))

/-- Both phases of the mount lifecycle of one job finish without raising:
the mount step succeeds and the unmount tool would succeed were it needed. -/
def pm_safe (env : Env) (pm : PartitionManager) : Bool :=
  except_ok (mount_partition env pm).result &&
    except_ok (unmount_partition_if_needed env pm .newlyMounted).result

end Ink

namespace InkRoot

/-- BackupInstance attributes assigned by __init__ in the root-level ink.py.
The logfile handed down by BackupManager is always None there; it is kept as
an option to stay faithful.  Note that __init__ assigns _logfile while
_make_backups_incremental reads self.logfile, an attribute that is never
assigned.  folderPrefix stands for the folder_prefix attribute. -/
structure BackupInstance where
  name : String
  backup_folder : String
  to_backup : String
  backup_type : String
  exclude_file : String
  link_name : String
  folderPrefix : String
  frequency : Int
  rebase_root : Bool
  force_backup : Bool
  _logfile : Option Unit

/-- BackupInstance._add_exclude_and_log_files from the root-level ink.py:
only the exclude-from argument (the log-file part is commented out there). -/
def _add_exclude_and_log_files (env : Env) (b : BackupInstance) (shell_command : List String) :
    List String :=
  if b.exclude_file.length > 0 && env.pathExists b.exclude_file
  then shell_command ++ ["--exclude-from=" ++ b.exclude_file] else shell_command

/-- BackupInstance._make_backups_incremental from the root-level ink.py:
allocate the new folder, start from rsync -ax, add a --link-dest hint naming
the current link when it resolves to a directory, add the exclude file, run
rsync, and replace the symlink.  When _logfile is not None the command
assembly reads the unassigned attribute self.logfile and raises. -/
def _make_backups_incremental (env : Env) (b : BackupInstance) : M Unit := do
  let newBase ← alloc_backup_basename env b.backup_folder b.folderPrefix
  let newFolder ← make_target_folder env b.rebase_root b.to_backup newBase
  let link := ospath_join b.backup_folder b.link_name
  let cmd := ["rsync", "-ax"]
  let cmd ← (match b._logfile with
    | some _ => (raiseErr (.attributeError "logfile") : M (List String))
    | none => M.pure cmd)
  let cmd := if env.isdir link then cmd ++ ["--link-dest=" ++ link] else cmd
  let cmd := if b.exclude_file.length > 0 && env.pathExists b.exclude_file
    then cmd ++ ["--exclude-from=" ++ b.exclude_file] else cmd
  let cmd := if b.to_backup = "/" then cmd ++ [b.to_backup, newFolder]
    else cmd ++ [b.to_backup ++ "/", newFolder]
  run_shell_command env cmd "Shell command failed."
  _replace_symlink env link newBase

/-- BackupInstance._make_backups_nolinks from the root-level ink.py: when the
current link resolves to a directory, add -b, delete the freshly allocated
new folder, rename the resolved previous folder to the new basename, create
an empty directory at the previous basename with a _bak suffix, and pass the
rebased target inside it as --backup-dir; then excludes, rsync, relink. -/
def _make_backups_nolinks (env : Env) (b : BackupInstance) : M Unit := do
  let newBase ← alloc_backup_basename env b.backup_folder b.folderPrefix
  let newFolder ← make_target_folder env b.rebase_root b.to_backup newBase
  let link := ospath_join b.backup_folder b.link_name
  let cmd := ["rsync", "-ax"]
  let cmd ← (if env.isdir link then do
      let prevBase := env.realpath link
      emit (.rmtree newBase)
      emit (.rename prevBase newBase)
      emit (.mkdir (prevBase ++ "_bak"))
      let prevFolder ← make_target_folder env b.rebase_root b.to_backup (prevBase ++ "_bak")
      M.pure (cmd ++ ["-b"] ++ ["--backup-dir", prevFolder])
    else M.pure cmd)
  let cmd := _add_exclude_and_log_files env b cmd
  let cmd := if b.to_backup = "/" then cmd ++ [b.to_backup, newFolder]
    else cmd ++ [b.to_backup ++ "/", newFolder]
  run_shell_command env cmd "Shell command failed."
  _replace_symlink env link newBase

/-- BackupInstance._make_backups_full from the root-level ink.py: like
incremental but never any reuse hint. -/
def _make_backups_full (env : Env) (b : BackupInstance) : M Unit := do
  let newBase ← alloc_backup_basename env b.backup_folder b.folderPrefix
  let newFolder ← make_target_folder env b.rebase_root b.to_backup newBase
  let link := ospath_join b.backup_folder b.link_name
  let cmd := _add_exclude_and_log_files env b ["rsync", "-ax"]
  let cmd := if b.to_backup = "/" then cmd ++ [b.to_backup, newFolder]
    else cmd ++ [b.to_backup ++ "/", newFolder]
  run_shell_command env cmd "Shell command failed."
  _replace_symlink env link newBase

end InkRoot

/-- The due-branch of BackupInstance.run: mount, attempt the backup step make
(its exception, if any, only clears the success flag), unmount-if-needed in
the finally block, and return whether backups were made. -/
def Ink.attempt_backup (env : Env) (b : Ink.BackupInstance) (make : M Unit) : M Bool :=
  M.bind (Ink.mount_partition env b.pm) (fun st =>
    M.bind (⟨make.trace, .ok ()⟩ : M Unit) (fun _ =>
      M.bind (Ink.unmount_partition_if_needed env b.pm st) (fun _ =>
        M.pure (except_ok make.result))))

/-- An rsync argument carrying the same-content-reuse hint. -/
def is_link_dest_arg (s : String) : Bool := s.startsWith "--link-dest"

/-- An event that would modify, rename or remove anything other than the
pointer link itself: a rename, a recursive removal, or an unlink of a path
other than the link. -/
def modifies_other_than_link (link : String) (e : Event) : Bool :=
  match e with
  | .rename _ _ => true
  | .rmtree _ => true
  | .unlink p => !(p == link)
  | _ => false

/-- The path of the current-pointer symlink of an InkRoot instance. -/
def InkRoot.link_of (b : InkRoot.BackupInstance) : String :=
  ospath_join b.backup_folder b.link_name

/-- The write target (with trailing slash) derived from a folder basename. -/
def InkRoot.target_of (b : InkRoot.BackupInstance) (base : String) : String :=
  with_trailing_slash (rebase_target b.rebase_root b.to_backup base)

/-- The rsync command assembled by _make_backups_incremental for the new
folder basename nm (extracted from the embedding for stating theorems). -/
def InkRoot.inc_cmd (env : Env) (b : InkRoot.BackupInstance) (nm : String) : List String :=
  let link := InkRoot.link_of b
  let c := ["rsync", "-ax"]
  let c := if env.isdir link then c ++ ["--link-dest=" ++ link] else c
  let c := if b.exclude_file.length > 0 && env.pathExists b.exclude_file
    then c ++ ["--exclude-from=" ++ b.exclude_file] else c
  if b.to_backup = "/" then c ++ [b.to_backup, InkRoot.target_of b nm]
  else c ++ [b.to_backup ++ "/", InkRoot.target_of b nm]

/-- The rsync command assembled by _make_backups_nolinks for the new folder
basename nm. -/
def InkRoot.bak_cmd (env : Env) (b : InkRoot.BackupInstance) (nm : String) : List String :=
  let link := InkRoot.link_of b
  let c := ["rsync", "-ax"]
  let c := if env.isdir link then
      c ++ ["-b"] ++ ["--backup-dir", InkRoot.target_of b (env.realpath link ++ "_bak")]
    else c
  let c := InkRoot._add_exclude_and_log_files env b c
  if b.to_backup = "/" then c ++ [b.to_backup, InkRoot.target_of b nm]
  else c ++ [b.to_backup ++ "/", InkRoot.target_of b nm]

/-- The rsync command assembled by _make_backups_full for the new folder
basename nm. -/
def InkRoot.full_cmd (env : Env) (b : InkRoot.BackupInstance) (nm : String) : List String :=
  let c := InkRoot._add_exclude_and_log_files env b ["rsync", "-ax"]
  if b.to_backup = "/" then c ++ [b.to_backup, InkRoot.target_of b nm]
  else c ++ [b.to_backup ++ "/", InkRoot.target_of b nm]

/-- A sample wall-clock date and time. -/
def tNow : LocalTime := ⟨2026, 1, 2, 3, 4⟩

/-- A benign world: every tool exits 0, nothing is mounted, the current links
resolve to directories, no target folder exists yet, link paths exist. -/
def env_ok : Env :=
  ⟨fun _ => 0, fun _ => false, fun _ => true, fun _ => false, fun _ => true,
   fun s => s, tNow, 1000, 3⟩

/-- A world in which every external tool exits 1. -/
def env_fail : Env :=
  ⟨fun _ => 1, fun _ => false, fun _ => true, fun _ => false, fun _ => true,
   fun s => s, tNow, 1000, 3⟩

/-- A benign world with no previous backup: current links do not resolve. -/
def env_nodir : Env :=
  ⟨fun _ => 0, fun _ => false, fun _ => false, fun _ => false, fun _ => false,
   fun s => s, tNow, 1000, 3⟩

/-- A world where the first two candidate folder names are taken. -/
def env_collide : Env :=
  ⟨fun _ => 0, fun _ => false, fun _ => false,
   fun s => (s == "/bk/backup-2026-01-02T03:04") || (s == "/bk/backup-2026-01-02T03:04_1"),
   fun _ => false, fun s => s, tNow, 1000, 5⟩

/-- A forced incremental job whose backup partition mounts at /mnt. -/
def jobA : Ink.BackupInstance :=
  ⟨"jobA", 0, ⟨"/mnt", "", "", ""⟩, "/mnt/bk", "/data", "incremental", "",
   "current", "backup-", 10, true, "", true, false⟩

/-- A forced incremental job with no mount point. -/
def jobB : Ink.BackupInstance :=
  ⟨"jobB", 0, ⟨"", "", "", ""⟩, "/bk2", "/data", "incremental", "",
   "current", "backup-", 10, true, "", true, false⟩

/-- A forced snapshot job whose destination root /data/backup lies inside its
source path /data. -/
def jobSnap : Ink.BackupInstance :=
  ⟨"snap", 0, ⟨"", "", "", ""⟩, "/data/backup", "/data", "snapshot", "",
   "current", "backup-", 10, true, "", true, false⟩

/-- A forced incremental job whose destination root /data/backup lies inside
its source path /data. -/
def jobInc : Ink.BackupInstance :=
  ⟨"inc", 0, ⟨"", "", "", ""⟩, "/data/backup", "/data", "incremental", "",
   "current", "backup-", 10, true, "", true, false⟩

/-- An unforced job whose last success was exactly one frequency ago. -/
def jobEq : Ink.BackupInstance :=
  ⟨"eq", 990, ⟨"", "", "", ""⟩, "/bk2", "/data", "incremental", "",
   "current", "backup-", 10, true, "", false, false⟩

/-- A root-level-ink.py job used to exercise the per-strategy functions. -/
def rjob : InkRoot.BackupInstance :=
  ⟨"rjob", "/bk", "/data", "incremental", "", "current", "backup-", 10, true,
   true, none⟩

theorem M.bind_eq {α β : Type} (x : M α) (f : α → M β) : x >>= f = M.bind x f := rfl

theorem M.pure_eq {α : Type} (a : α) : (Pure.pure a : M α) = ⟨[], .ok a⟩ := rfl

theorem M.bind_mk_ok {α β : Type} (tr : List Event) (a : α) (f : α → M β) :
    M.bind ⟨tr, .ok a⟩ f = ⟨tr ++ (f a).trace, (f a).result⟩ := rfl

theorem M.bind_mk_error {α β : Type} (tr : List Event) (e : PyErr) (f : α → M β) :
    M.bind ⟨tr, .error e⟩ f = ⟨tr, .error e⟩ := rfl

theorem M.bind_of_ok {α β : Type} {x : M α} {a : α} (h : x.result = .ok a) (f : α → M β) :
    M.bind x f = ⟨x.trace ++ (f a).trace, (f a).result⟩ := by
  unfold M.bind; rw [h]

theorem M.bind_of_error {α β : Type} {x : M α} {e : PyErr} (h : x.result = .error e)
    (f : α → M β) : M.bind x f = ⟨x.trace, .error e⟩ := by
  unfold M.bind; rw [h]

theorem run_shell_command_of_ok {env : Env} {command : List String} {error_string : String}
    (h : env.exitCode (join_args command) = 0) :
    run_shell_command env command error_string = ⟨[.shell (join_args command)], .ok ()⟩ := by
  simp [run_shell_command, h]

theorem run_shell_command_of_fail {env : Env} {command : List String} {error_string : String}
    (h : ¬ env.exitCode (join_args command) = 0) :
    run_shell_command env command error_string =
      ⟨[.shell (join_args command)], .error (.runtimeError error_string)⟩ := by
  simp [run_shell_command, h]

/-- The name-collision loop returns the first candidate whose creation can
succeed: the result is free, and every earlier candidate was taken. -/
theorem find_free_name_spec (ex : String → Bool) (base : String) :
    ∀ (fuel start : Nat) (nm : String), find_free_name ex base fuel start = some nm →
      ex nm = false ∧ ∃ n, start ≤ n ∧ nm = nth_candidate base n ∧
        ∀ m, start ≤ m → m < n → ex (nth_candidate base m) = true := by
  intro fuel
  induction fuel with
  | zero => intro start nm h; simp [find_free_name] at h
  | succ f ih =>
    intro start nm h
    rw [find_free_name] at h
    by_cases hex : ex (nth_candidate base start) = true
    · rw [if_pos hex] at h
      obtain ⟨hnm, n, hn1, hn2, hn3⟩ := ih (start + 1) nm h
      refine ⟨hnm, n, by omega, hn2, fun m hm1 hm2 => ?_⟩
      rcases Nat.eq_or_lt_of_le hm1 with he | hl
      · rw [← he]; exact hex
      · exact hn3 m hl hm2
    · rw [if_neg hex] at h
      obtain rfl : nth_candidate base start = nm := by
        simpa using h
      exact ⟨by simpa using hex, start, le_refl _, rfl, fun m hm1 hm2 => by omega⟩

/-- C9: folder allocation creates under destinationRoot a directory whose
name is the folder prefix followed by the current local timestamp in the
ISO-8601 to-the-minute format of the source format string "%Y-%m-%dT%H:%M"
(embedded as strftime_iso_minute), resolving collisions by appending _1, _2,
and so on in increasing order; the name returned is the first candidate not
existing beforehand, and the only effect is creating that one directory. -/
theorem c9_folder_allocation (env : Env) (backup_folder fold_pref nm : String)
    (hnm : find_free_name env.pathExists
      (ospath_join backup_folder (fold_pref ++ strftime_iso_minute env.now)) env.fuel 0 = some nm) :
    alloc_backup_basename env backup_folder fold_pref = ⟨[.mkdir nm], .ok nm⟩
    ∧ env.pathExists nm = false
    ∧ ∃ n, nm = nth_candidate (ospath_join backup_folder (fold_pref ++ strftime_iso_minute env.now)) n
        ∧ ∀ m, m < n → env.pathExists
            (nth_candidate (ospath_join backup_folder (fold_pref ++ strftime_iso_minute env.now)) m) = true := by
  obtain ⟨hfree, n, _, hcand, hall⟩ := find_free_name_spec env.pathExists _ env.fuel 0 nm hnm
  refine ⟨?_, hfree, n, hcand, fun m hm => hall m (Nat.zero_le m) hm⟩
  simp [alloc_backup_basename, hnm]

/-- Witness for C9 at a concrete world: the base name and its _1 variant are
taken, so the returned folder is the _2 candidate, which did not exist. -/
theorem c9_witness :
    find_free_name env_collide.pathExists
        (ospath_join "/bk" ("backup-" ++ strftime_iso_minute env_collide.now)) env_collide.fuel 0 =
      some "/bk/backup-2026-01-02T03:04_2"
    ∧ (alloc_backup_basename env_collide "/bk" "backup-" =
        ⟨[.mkdir "/bk/backup-2026-01-02T03:04_2"], .ok "/bk/backup-2026-01-02T03:04_2"⟩
      ∧ env_collide.pathExists "/bk/backup-2026-01-02T03:04_2" = false
      ∧ ∃ n, "/bk/backup-2026-01-02T03:04_2" =
            nth_candidate (ospath_join "/bk" ("backup-" ++ strftime_iso_minute env_collide.now)) n
          ∧ ∀ m, m < n → env_collide.pathExists
              (nth_candidate (ospath_join "/bk" ("backup-" ++ strftime_iso_minute env_collide.now)) m) = true) :=
  ⟨by decide, c9_folder_allocation env_collide "/bk" "backup-" "/bk/backup-2026-01-02T03:04_2" (by decide)⟩

/-- C10: every external tool invocation joins its argument list with single
spaces and hands the single resulting string to a shell, raising RuntimeError
exactly when the exit status is nonzero; and the joined string does not
determine the argument list (two different intended argument lists, one with
an embedded space, yield the identical executed command line), so for such
inputs the executed command differs from the intended argument list. -/
theorem c10_shell_join :
    (∀ (env : Env) (command : List String) (error_string : String),
      run_shell_command env command error_string =
        ⟨[.shell (String.intercalate " " command)],
         if env.exitCode (String.intercalate " " command) = 0 then .ok ()
         else .error (.runtimeError error_string)⟩)
    ∧ join_args ["rsync", "-a", "/my docs/", "/bk/"] = join_args ["rsync", "-a", "/my", "docs/", "/bk/"]
    ∧ ["rsync", "-a", "/my docs/", "/bk/"] ≠ ["rsync", "-a", "/my", "docs/", "/bk/"] :=
  ⟨fun _ _ _ => rfl, by decide, by decide⟩

/-- The non-snapshot worker always raises (nontermination of the allocation
loop aside, it reaches the undefined _get_base_command), and its only effects
are directory creations. -/
theorem make_backups_common_spec (env : Env) (b : Ink.BackupInstance) :
    ((Ink._make_backups_common env b).result = Except.error PyErr.nonterm ∨
      (Ink._make_backups_common env b).result = Except.error (PyErr.attributeError "_get_base_command"))
    ∧ (∀ e ∈ (Ink._make_backups_common env b).trace, ∃ p, e = Event.mkdir p)
    ∧ (∀ nm, find_free_name env.pathExists
          (ospath_join b.backup_folder (b.folderPrefix ++ strftime_iso_minute env.now)) env.fuel 0 =
            some nm →
        (Ink._make_backups_common env b).result = Except.error (PyErr.attributeError "_get_base_command")) := by
  unfold Ink._make_backups_common
  rcases hfind : find_free_name env.pathExists
      (ospath_join b.backup_folder (b.folderPrefix ++ strftime_iso_minute env.now)) env.fuel 0 with _ | nm
  · simp [alloc_backup_basename, hfind, M.bind_eq, M.bind_mk_error, raiseErr]
  · by_cases hfs : env.pathExists (rebase_target b.rebase_root b.to_backup nm) = true <;>
      refine ⟨?_, ?_, ?_⟩ <;>
      simp [alloc_backup_basename, hfind, M.bind_eq, M.bind_mk_ok, M.bind_mk_error,
        make_target_folder, raiseErr, hfs]

/-- The snapshot worker raises on the unassigned _mount_point attribute with
no effects at all. -/
theorem make_backups_snapshot_spec (env : Env) (b : Ink.BackupInstance) :
    Ink._make_backups_snapshot env b = ⟨[], Except.error (PyErr.attributeError "_mount_point")⟩ := by
  simp [Ink._make_backups_snapshot, Ink._add_exclude_and_log_files, raiseErr,
    M.bind_eq, M.bind_mk_error]

/-- For all four recognized backup types, _make_backups raises. -/
theorem make_backups_fails (env : Env) (b : Ink.BackupInstance)
    (htype : b.backup_type = "incremental" ∨ b.backup_type = "nolinks" ∨
      b.backup_type = "full" ∨ b.backup_type = "snapshot") :
    except_ok (Ink._make_backups env b).result = false := by
  rcases htype with h | h | h | h
  · have hd : Ink._make_backups env b = Ink._make_backups_common env b := by
      simp [Ink._make_backups, h]
    rw [hd]
    rcases (make_backups_common_spec env b).1 with he | he <;> simp [he, except_ok]
  · have hd : Ink._make_backups env b = Ink._make_backups_common env b := by
      simp [Ink._make_backups, h]
    rw [hd]
    rcases (make_backups_common_spec env b).1 with he | he <;> simp [he, except_ok]
  · have hd : Ink._make_backups env b = Ink._make_backups_common env b := by
      simp [Ink._make_backups, h]
    rw [hd]
    rcases (make_backups_common_spec env b).1 with he | he <;> simp [he, except_ok]
  · have hd : Ink._make_backups env b = Ink._make_backups_snapshot env b := by
      simp [Ink._make_backups, h]
    rw [hd, make_backups_snapshot_spec]
    simp [except_ok]

/-- When the make step fails, a normal return of run carries the value
False. -/
theorem runWith_ok_val (env : Env) (b : Ink.BackupInstance) (make : M Unit) (r : Bool)
    (hmk : except_ok make.result = false)
    (h : (Ink.runWith env b make).result = Except.ok r) : r = false := by
  unfold Ink.runWith at h
  by_cases hdue : (b.force_backup || Ink._backup_outdated env b) = true
  · rw [if_pos hdue] at h
    rcases hm : (Ink.mount_partition env b.pm).result with e | st
    · rw [M.bind_of_error hm] at h; cases h
    · rw [M.bind_of_ok hm] at h
      simp only [M.bind_mk_ok] at h
      rcases hu : (Ink.unmount_partition_if_needed env b.pm st).result with e | u
      · rw [M.bind_of_error hu] at h; cases h
      · rw [M.bind_of_ok hu] at h
        simp [M.pure] at h
        rw [← h, hmk]
  · rw [if_neg hdue] at h
    simp [M.pure] at h
    exact h

/-- C2: for every BackupInstance of source/ink.py, _make_backups raises
AttributeError before any rsync invocation: the non-snapshot path calls the
undefined method _get_base_command (its effects stop at creating the new
timestamped folder tree, nothing but directory creations and in particular no
shell event), the snapshot path reaches the undefined attribute _mount_point
in _add_exclude_and_log_files with no effect at all; consequently whenever
run() returns it returns False, and the manager loop never records a success
in the history for instances of the four recognized types. -/
theorem c2_broken_make_backups :
    ∀ env : Env,
      (∀ b : Ink.BackupInstance,
        ((b.backup_type = "incremental" ∨ b.backup_type = "nolinks" ∨ b.backup_type = "full") →
          (∀ e ∈ (Ink._make_backups env b).trace, ∃ p, e = Event.mkdir p)
          ∧ ∀ nm, find_free_name env.pathExists
                (ospath_join b.backup_folder (b.folderPrefix ++ strftime_iso_minute env.now))
                env.fuel 0 = some nm →
              (Ink._make_backups env b).result = Except.error (PyErr.attributeError "_get_base_command"))
        ∧ (b.backup_type = "snapshot" →
            Ink._make_backups env b = ⟨[], Except.error (PyErr.attributeError "_mount_point")⟩)
        ∧ ((b.backup_type = "incremental" ∨ b.backup_type = "nolinks" ∨
              b.backup_type = "full" ∨ b.backup_type = "snapshot") →
            ∀ r, (Ink.BackupInstance.run env b).result = Except.ok r → r = false))
      ∧ ∀ (insts : List Ink.BackupInstance) (hist h : List (String × Int)),
          (∀ bi ∈ insts, bi.backup_type = "incremental" ∨ bi.backup_type = "nolinks" ∨
            bi.backup_type = "full" ∨ bi.backup_type = "snapshot") →
          (Ink.manager_run_loop env insts hist).result = Except.ok h → h = hist := by
  intro env
  constructor
  · intro b
    refine ⟨?_, ?_, ?_⟩
    · intro htype
      have hd : Ink._make_backups env b = Ink._make_backups_common env b := by
        simp [Ink._make_backups, htype]
      rw [hd]
      exact ⟨(make_backups_common_spec env b).2.1, (make_backups_common_spec env b).2.2⟩
    · intro htype
      have hd : Ink._make_backups env b = Ink._make_backups_snapshot env b := by
        simp [Ink._make_backups, htype]
      rw [hd, make_backups_snapshot_spec]
    · intro htype r hr
      exact runWith_ok_val env b (Ink._make_backups env b) r
        (make_backups_fails env b htype) hr
  · intro insts
    induction insts with
    | nil =>
      intro hist h _ hok
      simpa [Ink.manager_run_loop, M.pure] using hok.symm
    | cons b rest ih =>
      intro hist h htypes hok
      unfold Ink.manager_run_loop at hok
      rcases hr : (Ink.BackupInstance.run env b).result with e | made
      · rw [M.bind_of_error hr] at hok; cases hok
      · rw [M.bind_of_ok hr] at hok
        have hmade : made = false :=
          runWith_ok_val env b (Ink._make_backups env b) made
            (make_backups_fails env b (htypes b (List.mem_cons_self b rest))) hr
        subst hmade
        simp only [if_neg (Bool.false_ne_true)] at hok
        exact ih hist h (fun bi hbi => htypes bi (List.mem_cons_of_mem b hbi)) hok

/-- Witness for C2 at concrete inputs: an incremental job hits the missing
_get_base_command, a snapshot job hits the missing _mount_point. -/
theorem c2_witness :
    (Ink._make_backups env_nodir jobInc).result =
        Except.error (PyErr.attributeError "_get_base_command")
    ∧ Ink._make_backups env_nodir jobSnap =
        ⟨[], Except.error (PyErr.attributeError "_mount_point")⟩ :=
  ⟨(((c2_broken_make_backups env_nodir).1 jobInc).1 (Or.inl rfl)).2
      "/data/backup/backup-2026-01-02T03:04" (by decide),
   ((c2_broken_make_backups env_nodir).1 jobSnap).2.1 rfl⟩

/-- C3: without the force flag a run enters the backup attempt (mount, make,
scoped unmount, returning the success flag) exactly when now minus the last
success strictly exceeds the frequency; at exact equality nothing happens at
all (empty trace, normal return False); with the force flag the attempt is
made regardless of the timestamp. -/
theorem c3_staleness_rule :
    ∀ (env : Env) (b : Ink.BackupInstance) (make : M Unit),
      (b.force_backup = false → env.time - b.last_backup ≤ b.frequency →
        Ink.runWith env b make = ⟨[], Except.ok false⟩)
      ∧ (b.force_backup = false → env.time - b.last_backup > b.frequency →
        Ink.runWith env b make = Ink.attempt_backup env b make)
      ∧ (b.force_backup = true →
        Ink.runWith env b make = Ink.attempt_backup env b make) := by
  intro env b make
  refine ⟨?_, ?_, ?_⟩
  · intro hf hle
    have hb : Ink._backup_outdated env b = false := by
      rw [Ink._backup_outdated]
      simp only [decide_eq_false_iff_not]
      omega
    simp [Ink.runWith, hf, hb, M.pure]
  · intro hf hgt
    have hb : Ink._backup_outdated env b = true := by
      rw [Ink._backup_outdated]
      simp only [decide_eq_true_eq]
      omega
    simp [Ink.runWith, Ink.attempt_backup, hf, hb]
  · intro hf
    simp [Ink.runWith, Ink.attempt_backup, hf]

/-- Witness for C3: a job whose last success was exactly one frequency ago is
not due, and its run changes nothing. -/
theorem c3_witness :
    jobEq.force_backup = false ∧ env_ok.time - jobEq.last_backup ≤ jobEq.frequency
    ∧ Ink.runWith env_ok jobEq (M.pure ()) = ⟨[], Except.ok false⟩ :=
  ⟨rfl, by decide, (c3_staleness_rule env_ok jobEq (M.pure ())).1 rfl (by decide)⟩

/-- C4: at the failing input (a snapshot job whose destination root
/data/backup lies inside its source path /data, and likewise an incremental
job), the run raises AttributeError before any copy invocation: no shell
event occurs, so the copy never receives any exclusion argument at all, let
alone one for the destination root relative to the source path.  The code
cannot satisfy the claim (its own test test_default_exclude expects the
exclusion): reading self._mount_point raises, the guard tests the mount point
rather than the destination root, and the two-argument list.extend call would
raise TypeError anyway. -/
theorem c4_exclude_never_added :
    path_is_parent env_nodir jobSnap.to_backup jobSnap.backup_folder = true
    ∧ Ink._make_backups env_nodir jobSnap =
        ⟨[], Except.error (PyErr.attributeError "_mount_point")⟩
    ∧ (Ink._make_backups env_nodir jobInc).result =
        Except.error (PyErr.attributeError "_get_base_command")
    ∧ (Ink._make_backups env_nodir jobInc).trace =
        [Event.mkdir "/data/backup/backup-2026-01-02T03:04",
         Event.mkdir "/data/backup/backup-2026-01-02T03:04/data"] := by
  refine ⟨by decide, rfl, ?_, ?_⟩ <;> rfl

/-- C1 counterexample: with two configured jobs where the first one's mount
tool fails, BackupManager.run raises instead of catching the error — the
second job never runs (its trace is absent) and the history file is never
written (no historyWrite event), contradicting the claim that a mount
failure is caught and the remaining jobs and the final flush still happen. -/
theorem c1_counterexample :
    Ink.BackupManager.run env_fail [jobA, jobB] [] =
      ⟨[Event.shell "mount /mnt"], Except.error (PyErr.runtimeError "Mounting backup disk failed.")⟩ := rfl

/-- When both mount phases of a job are safe, its run returns normally. -/
theorem runWith_ok_of_safe (env : Env) (b : Ink.BackupInstance) (make : M Unit)
    (hs : Ink.pm_safe env b.pm = true) :
    ∃ r, (Ink.runWith env b make).result = Except.ok r := by
  rw [Ink.pm_safe, Bool.and_eq_true] at hs
  obtain ⟨hm, hu⟩ := hs
  unfold Ink.runWith
  by_cases hdue : (b.force_backup || Ink._backup_outdated env b) = true
  · rw [if_pos hdue]
    rcases hmr : (Ink.mount_partition env b.pm).result with e | st
    · rw [hmr] at hm; simp [except_ok] at hm
    · rw [M.bind_of_ok hmr]
      simp only [M.bind_mk_ok]
      rcases hur : (Ink.unmount_partition_if_needed env b.pm st).result with e | u
      · cases st
        · rw [hur] at hu; simp [except_ok] at hu
        · simp [Ink.unmount_partition_if_needed] at hur
      · rw [M.bind_of_ok hur]
        exact ⟨except_ok make.result, by simp [M.pure]⟩
  · rw [if_neg hdue]
    exact ⟨false, rfl⟩

/-- When every job's mount phases are safe, the manager loop completes and
its trace is the concatenation of the jobs' traces in configuration order. -/
theorem manager_loop_ok_of_safe (env : Env) :
    ∀ (insts : List Ink.BackupInstance) (hist : List (String × Int)),
      (∀ b ∈ insts, Ink.pm_safe env b.pm = true) →
      ∃ h, Ink.manager_run_loop env insts hist =
        ⟨(insts.map (fun b => (Ink.BackupInstance.run env b).trace)).flatten, Except.ok h⟩ := by
  intro insts
  induction insts with
  | nil =>
    intro hist _
    exact ⟨hist, by simp [Ink.manager_run_loop, M.pure]⟩
  | cons b rest ih =>
    intro hist hsafe
    obtain ⟨r, hr⟩ := runWith_ok_of_safe env b (Ink._make_backups env b)
      (hsafe b (List.mem_cons_self b rest))
    obtain ⟨h, hrec⟩ := ih (if r then Ink.hist_set hist b.name env.time else hist)
      (fun bi hbi => hsafe bi (List.mem_cons_of_mem b hbi))
    refine ⟨h, ?_⟩
    have hr' : (Ink.BackupInstance.run env b).result = Except.ok r := hr
    show M.bind (Ink.BackupInstance.run env b) _ = _
    rw [M.bind_of_ok hr', hrec]
    simp

/-- C1 amended: exceptions raised by the backup step itself (the body of
_make_backups, a copy-tool failure included) are caught inside
BackupInstance.run, so provided the mount and unmount phases of every job
raise nothing, all jobs run in configuration order and the history file is
written exactly once at the end; the counterexample shows the original claim
fails for mount-tool failures, which propagate uncaught. -/
theorem c1_amended_history_flush :
    ∀ (env : Env) (insts : List Ink.BackupInstance) (hist : List (String × Int)),
      (∀ b ∈ insts, Ink.pm_safe env b.pm = true) →
      ∃ h, Ink.BackupManager.run env insts hist =
        ⟨(insts.map (fun b => (Ink.BackupInstance.run env b).trace)).flatten ++
          [Event.historyWrite h], Except.ok ()⟩ := by
  intro env insts hist hsafe
  obtain ⟨h, hloop⟩ := manager_loop_ok_of_safe env insts hist hsafe
  refine ⟨h, ?_⟩
  show M.bind (Ink.manager_run_loop env insts hist) _ = _
  rw [hloop]
  simp [M.bind_mk_ok, emit]

/-- Witness for the amended C1: two jobs under a benign world (their backup
steps still raise AttributeError, which is caught) both run and exactly one
history write happens. -/
theorem c1_amended_witness :
    (∀ b ∈ [jobA, jobB], Ink.pm_safe env_ok b.pm = true)
    ∧ ∃ h, Ink.BackupManager.run env_ok [jobA, jobB] [] =
        ⟨([jobA, jobB].map (fun b => (Ink.BackupInstance.run env_ok b).trace)).flatten ++
          [Event.historyWrite h], Except.ok ()⟩ :=
  ⟨by decide, c1_amended_history_flush env_ok [jobA, jobB] [] (by decide)⟩

/-- C8: in a due run whose mount step returned normally with outcome token
st, the unmount check runs in the finally block even when the backup step
raised (the run trace is mount trace, then make trace, then unmount trace);
the unmount tool is invoked exactly when st is NEWLY_MOUNTED, and st is
NEWLY_MOUNTED exactly when this very mount call found a configured mount
point that was not yet in the mount table — an already mounted volume, or a
job with no mount point, triggers no unmount invocation at all. -/
theorem c8_unmount_scoped :
    ∀ (env : Env) (b : Ink.BackupInstance) (make : M Unit) (st : Ink.MountStatus),
      (b.force_backup || Ink._backup_outdated env b) = true →
      (Ink.mount_partition env b.pm).result = Except.ok st →
      ((Ink.runWith env b make).trace =
          (Ink.mount_partition env b.pm).trace ++ make.trace ++
            (Ink.unmount_partition_if_needed env b.pm st).trace)
      ∧ ((Ink.unmount_partition_if_needed env b.pm st).trace =
          if st = Ink.MountStatus.newlyMounted
          then [Event.shell (join_args ["umount", b.pm.mount_point])] else [])
      ∧ (st = Ink.MountStatus.newlyMounted ↔
          (¬ b.pm.mount_point.length = 0 ∧ env.isMounted b.pm.mount_point = false)) := by
  intro env b make st hdue hst
  refine ⟨?_, ?_, ?_⟩
  · unfold Ink.runWith
    rw [if_pos hdue, M.bind_of_ok hst]
    simp only [M.bind_mk_ok]
    rcases hur : (Ink.unmount_partition_if_needed env b.pm st).result with e | u
    · rw [M.bind_of_error hur]; simp
    · rw [M.bind_of_ok hur]; simp [M.pure]
  · cases st
    · simp [Ink.unmount_partition_if_needed, run_shell_command]
    · simp [Ink.unmount_partition_if_needed]
  · unfold Ink.mount_partition at hst
    by_cases h1 : b.pm.mount_point.length = 0
    · rw [if_pos h1] at hst
      cases hst
      simp [h1]
    · rw [if_neg h1] at hst
      by_cases h2 : env.isMounted b.pm.mount_point = true
      · rw [if_pos h2] at hst
        cases hst
        simp [h2]
      · rw [if_neg h2] at hst
        rcases hrc : (run_shell_command env (Ink.mount_command b.pm)
            "Mounting backup disk failed.").result with e | u
        · rw [M.bind_of_error hrc] at hst; cases hst
        · rw [M.bind_of_ok hrc] at hst
          simp at hst
          subst hst
          simp [h1, Bool.eq_false_iff.mpr h2]

/-- Witness for C8: a forced job with an unmounted /mnt partition under a
benign world, whose backup step raises: the mount is newly made, the unmount
tool is invoked in the finally block all the same. -/
theorem c8_witness :
    (jobA.force_backup || Ink._backup_outdated env_ok jobA) = true
    ∧ (Ink.mount_partition env_ok jobA.pm).result = Except.ok Ink.MountStatus.newlyMounted
    ∧ (((Ink.runWith env_ok jobA (raiseErr PyErr.nonterm)).trace =
          (Ink.mount_partition env_ok jobA.pm).trace ++ (raiseErr PyErr.nonterm : M Unit).trace ++
            (Ink.unmount_partition_if_needed env_ok jobA.pm Ink.MountStatus.newlyMounted).trace)
        ∧ ((Ink.unmount_partition_if_needed env_ok jobA.pm Ink.MountStatus.newlyMounted).trace =
            if Ink.MountStatus.newlyMounted = Ink.MountStatus.newlyMounted
            then [Event.shell (join_args ["umount", jobA.pm.mount_point])] else [])
        ∧ (Ink.MountStatus.newlyMounted = Ink.MountStatus.newlyMounted ↔
            (¬ jobA.pm.mount_point.length = 0 ∧ env_ok.isMounted jobA.pm.mount_point = false))) :=
  ⟨rfl, rfl,
   c8_unmount_scoped env_ok jobA (raiseErr PyErr.nonterm) Ink.MountStatus.newlyMounted rfl rfl⟩

/-- Full behaviour of the root-level incremental worker: one folder
allocation, the target folder creation, a single rsync invocation with the
assembled command, and — exactly when the copy tool exits 0 — the symlink
replacement; a nonzero exit raises RuntimeError with nothing after the shell
event. -/
theorem incremental_run_eq (env : Env) (b : InkRoot.BackupInstance) (nm : String)
    (hlog : b._logfile = none)
    (hnm : find_free_name env.pathExists
      (ospath_join b.backup_folder (b.folderPrefix ++ strftime_iso_minute env.now)) env.fuel 0 =
        some nm) :
    InkRoot._make_backups_incremental env b =
      ⟨[Event.mkdir nm] ++ (make_target_folder env b.rebase_root b.to_backup nm).trace ++
        [Event.shell (join_args (InkRoot.inc_cmd env b nm))] ++
        (if env.exitCode (join_args (InkRoot.inc_cmd env b nm)) = 0
         then (_replace_symlink env (InkRoot.link_of b) nm).trace else []),
       if env.exitCode (join_args (InkRoot.inc_cmd env b nm)) = 0 then Except.ok ()
       else Except.error (PyErr.runtimeError "Shell command failed.")⟩ := by
  unfold InkRoot._make_backups_incremental
  rw [hlog]
  by_cases hdir : env.isdir (ospath_join b.backup_folder b.link_name) = true <;>
    by_cases hexc : (b.exclude_file.length > 0 && env.pathExists b.exclude_file) = true <;>
    by_cases hroot : b.to_backup = "/" <;>
    by_cases hexit : env.exitCode (join_args (InkRoot.inc_cmd env b nm)) = 0 <;>
    simp_all [alloc_backup_basename, hnm, M.bind_eq, M.bind_mk_ok, M.bind_mk_error,
      make_target_folder, M.pure_eq, M.pure, InkRoot.inc_cmd, InkRoot.link_of,
      InkRoot.target_of, run_shell_command, _replace_symlink, List.append_assoc]

/-- Full behaviour of the root-level nolinks worker: after the allocation and
target creation, when the current link resolves to a directory the rotation
steps happen in order — the fresh new folder is removed, the resolved
previous folder is renamed to the new basename, an empty _bak directory is
created at the previous basename, and its rebased target is created — then
the single rsync invocation, and the symlink replacement exactly when the
copy tool exits 0. -/
theorem nolinks_run_eq (env : Env) (b : InkRoot.BackupInstance) (nm : String)
    (hnm : find_free_name env.pathExists
      (ospath_join b.backup_folder (b.folderPrefix ++ strftime_iso_minute env.now)) env.fuel 0 =
        some nm) :
    InkRoot._make_backups_nolinks env b =
      ⟨[Event.mkdir nm] ++ (make_target_folder env b.rebase_root b.to_backup nm).trace ++
        (if env.isdir (InkRoot.link_of b) then
          [Event.rmtree nm, Event.rename (env.realpath (InkRoot.link_of b)) nm,
            Event.mkdir (env.realpath (InkRoot.link_of b) ++ "_bak")] ++
          (make_target_folder env b.rebase_root b.to_backup
            (env.realpath (InkRoot.link_of b) ++ "_bak")).trace
        else []) ++
        [Event.shell (join_args (InkRoot.bak_cmd env b nm))] ++
        (if env.exitCode (join_args (InkRoot.bak_cmd env b nm)) = 0
         then (_replace_symlink env (InkRoot.link_of b) nm).trace else []),
       if env.exitCode (join_args (InkRoot.bak_cmd env b nm)) = 0 then Except.ok ()
       else Except.error (PyErr.runtimeError "Shell command failed.")⟩ := by
  unfold InkRoot._make_backups_nolinks
  by_cases hdir : env.isdir (ospath_join b.backup_folder b.link_name) = true <;>
    by_cases hexc : (b.exclude_file.length > 0 && env.pathExists b.exclude_file) = true <;>
    by_cases hroot : b.to_backup = "/" <;>
    by_cases hexit : env.exitCode (join_args (InkRoot.bak_cmd env b nm)) = 0 <;>
    simp_all [alloc_backup_basename, hnm, M.bind_eq, M.bind_mk_ok, M.bind_mk_error,
      make_target_folder, M.pure_eq, M.pure, emit, InkRoot.bak_cmd, InkRoot.link_of,
      InkRoot.target_of, InkRoot._add_exclude_and_log_files, run_shell_command,
      _replace_symlink, List.append_assoc]

/-- Full behaviour of the root-level full worker: allocation, target
creation, one rsync invocation with no reuse hint, and the symlink
replacement exactly when the copy tool exits 0. -/
theorem full_run_eq (env : Env) (b : InkRoot.BackupInstance) (nm : String)
    (hnm : find_free_name env.pathExists
      (ospath_join b.backup_folder (b.folderPrefix ++ strftime_iso_minute env.now)) env.fuel 0 =
        some nm) :
    InkRoot._make_backups_full env b =
      ⟨[Event.mkdir nm] ++ (make_target_folder env b.rebase_root b.to_backup nm).trace ++
        [Event.shell (join_args (InkRoot.full_cmd env b nm))] ++
        (if env.exitCode (join_args (InkRoot.full_cmd env b nm)) = 0
         then (_replace_symlink env (InkRoot.link_of b) nm).trace else []),
       if env.exitCode (join_args (InkRoot.full_cmd env b nm)) = 0 then Except.ok ()
       else Except.error (PyErr.runtimeError "Shell command failed.")⟩ := by
  unfold InkRoot._make_backups_full
  by_cases hexc : (b.exclude_file.length > 0 && env.pathExists b.exclude_file) = true <;>
    by_cases hroot : b.to_backup = "/" <;>
    by_cases hexit : env.exitCode (join_args (InkRoot.full_cmd env b nm)) = 0 <;>
    simp_all [alloc_backup_basename, hnm, M.bind_eq, M.bind_mk_ok, M.bind_mk_error,
      make_target_folder, M.pure_eq, M.pure, InkRoot.full_cmd, InkRoot.link_of,
      InkRoot.target_of, InkRoot._add_exclude_and_log_files, run_shell_command,
      _replace_symlink, List.append_assoc]

/-- C5: in an incremental run (root-level ink.py implementation, reached with
the logfile None as BackupManager always passes it), when the previous
current link resolves to an existing directory the single copy command
carries the reuse hint --link-dest= naming that link path; when it does not,
the command is exactly the hint-free rsync command; and no event of the run
modifies, renames or removes anything other than the pointer link itself (in
particular the previous snapshot folder is left untouched). -/
theorem c5_incremental_link_dest :
    ∀ (env : Env) (b : InkRoot.BackupInstance) (nm : String),
      b._logfile = none →
      find_free_name env.pathExists
        (ospath_join b.backup_folder (b.folderPrefix ++ strftime_iso_minute env.now)) env.fuel 0 =
          some nm →
      ((env.isdir (InkRoot.link_of b) = true →
          ("--link-dest=" ++ InkRoot.link_of b) ∈ InkRoot.inc_cmd env b nm)
        ∧ (env.isdir (InkRoot.link_of b) = false →
          InkRoot.inc_cmd env b nm =
            (if (b.exclude_file.length > 0 && env.pathExists b.exclude_file) = true
             then ["rsync", "-ax", "--exclude-from=" ++ b.exclude_file]
             else ["rsync", "-ax"]) ++
            [if b.to_backup = "/" then b.to_backup else b.to_backup ++ "/",
             InkRoot.target_of b nm])
        ∧ ((InkRoot._make_backups_incremental env b).trace.all
            (fun e => !(modifies_other_than_link (InkRoot.link_of b) e)) = true
        ∧ (∃ pre post, (InkRoot._make_backups_incremental env b).trace =
            pre ++ [Event.shell (join_args (InkRoot.inc_cmd env b nm))] ++ post))) := by
  intro env b nm hlog hnm
  have htr := incremental_run_eq env b nm hlog hnm
  refine ⟨?_, ?_, ?_, ?_⟩
  · intro hdir
    by_cases hexc : 0 < b.exclude_file.length ∧ env.pathExists b.exclude_file = true <;>
      by_cases hroot : b.to_backup = "/" <;>
      simp [InkRoot.inc_cmd, hdir, hexc, hroot]
  · intro hdir
    by_cases hexc : 0 < b.exclude_file.length ∧ env.pathExists b.exclude_file = true <;>
      by_cases hroot : b.to_backup = "/" <;>
      simp [InkRoot.inc_cmd, hdir, hexc, hroot]
  · rw [htr]
    by_cases hfs : env.pathExists (rebase_target b.rebase_root b.to_backup nm) = true <;>
      by_cases hexit : env.exitCode (join_args (InkRoot.inc_cmd env b nm)) = 0 <;>
      by_cases hlex : env.linkExists (InkRoot.link_of b) = true <;>
      simp [make_target_folder, _replace_symlink, modifies_other_than_link, hfs, hexit, hlex]
  · exact ⟨[Event.mkdir nm] ++ (make_target_folder env b.rebase_root b.to_backup nm).trace,
      (if env.exitCode (join_args (InkRoot.inc_cmd env b nm)) = 0
       then (_replace_symlink env (InkRoot.link_of b) nm).trace else []),
      by rw [htr]⟩

/-- Witness for C5: a concrete incremental job under a benign world whose
current link resolves — the copy command carries the --link-dest hint naming
the link. -/
theorem c5_witness :
    rjob._logfile = none
    ∧ find_free_name env_ok.pathExists
        (ospath_join rjob.backup_folder (rjob.folderPrefix ++ strftime_iso_minute env_ok.now))
        env_ok.fuel 0 = some "/bk/backup-2026-01-02T03:04"
    ∧ (env_ok.isdir (InkRoot.link_of rjob) = true →
        ("--link-dest=" ++ InkRoot.link_of rjob) ∈
          InkRoot.inc_cmd env_ok rjob "/bk/backup-2026-01-02T03:04") :=
  ⟨rfl, by decide,
   (c5_incremental_link_dest env_ok rjob "/bk/backup-2026-01-02T03:04" rfl (by decide)).1⟩

/-- C6: in a nolinks run (root-level ink.py implementation) where the current
link resolves to a directory, the run performs, in order and before the
single copy invocation: deletion of the freshly allocated new folder, the
rename of the previous folder (resolved through the current symlink) to the
new basename, creation of a fresh directory at the previous basename with the
_bak suffix (and of the rebased target inside it, by the same rule used for a
new folder), and the copy command carries a --backup-dir hint pointing at the
rebased target inside the _bak basename. -/
theorem c6_nolinks_rotation :
    ∀ (env : Env) (b : InkRoot.BackupInstance) (nm : String),
      find_free_name env.pathExists
        (ospath_join b.backup_folder (b.folderPrefix ++ strftime_iso_minute env.now)) env.fuel 0 =
          some nm →
      env.isdir (InkRoot.link_of b) = true →
      ((InkRoot._make_backups_nolinks env b).trace =
        [Event.mkdir nm] ++ (make_target_folder env b.rebase_root b.to_backup nm).trace ++
          [Event.rmtree nm,
           Event.rename (env.realpath (InkRoot.link_of b)) nm,
           Event.mkdir (env.realpath (InkRoot.link_of b) ++ "_bak")] ++
          (make_target_folder env b.rebase_root b.to_backup
            (env.realpath (InkRoot.link_of b) ++ "_bak")).trace ++
          [Event.shell (join_args (InkRoot.bak_cmd env b nm))] ++
          (if env.exitCode (join_args (InkRoot.bak_cmd env b nm)) = 0
           then (_replace_symlink env (InkRoot.link_of b) nm).trace else []))
      ∧ (∃ l r, InkRoot.bak_cmd env b nm =
          l ++ ["--backup-dir",
                InkRoot.target_of b (env.realpath (InkRoot.link_of b) ++ "_bak")] ++ r) := by
  intro env b nm hnm hdir
  constructor
  · rw [nolinks_run_eq env b nm hnm]
    simp [hdir, List.append_assoc]
  · refine ⟨["rsync", "-ax", "-b"],
      (if (b.exclude_file.length > 0 && env.pathExists b.exclude_file) = true
       then ["--exclude-from=" ++ b.exclude_file] else []) ++
      [if b.to_backup = "/" then b.to_backup else b.to_backup ++ "/",
       InkRoot.target_of b nm], ?_⟩
    by_cases hexc : 0 < b.exclude_file.length ∧ env.pathExists b.exclude_file = true <;>
      by_cases hroot : b.to_backup = "/" <;>
      simp [InkRoot.bak_cmd, InkRoot._add_exclude_and_log_files, hdir, hexc, hroot]

/-- Witness for C6: the concrete nolinks rotation under a benign world where
the current link resolves. -/
theorem c6_witness :
    find_free_name env_ok.pathExists
      (ospath_join rjob.backup_folder (rjob.folderPrefix ++ strftime_iso_minute env_ok.now))
      env_ok.fuel 0 = some "/bk/backup-2026-01-02T03:04"
    ∧ env_ok.isdir (InkRoot.link_of rjob) = true
    ∧ ∃ l r, InkRoot.bak_cmd env_ok rjob "/bk/backup-2026-01-02T03:04" =
        l ++ ["--backup-dir",
              InkRoot.target_of rjob (env_ok.realpath (InkRoot.link_of rjob) ++ "_bak")] ++ r :=
  ⟨by decide, rfl,
   (c6_nolinks_rotation env_ok rjob "/bk/backup-2026-01-02T03:04" (by decide) rfl).2⟩

/-- C7: for each non-snapshot strategy of the root-level ink.py (incremental,
nolinks, full; the logfile is None as BackupManager always passes it), the
current symbolic link is replaced — the unlink of the link path happens only
when it exists (a missing link is ignored) and the created link's target is
the path of the new folder basename relative to the directory of the link
path, i.e. relative to destinationRoot — if and only if the external copy
tool exits with status 0; on nonzero exit the run raises RuntimeError, no
unlink and no symlink event occurs, and the NoLinks rotation steps already
performed (the rename of the previous folder) remain in the trace, not rolled
back. -/
theorem c7_symlink_iff_copy_ok :
    ∀ (env : Env) (b : InkRoot.BackupInstance) (nm : String),
      b._logfile = none →
      find_free_name env.pathExists
        (ospath_join b.backup_folder (b.folderPrefix ++ strftime_iso_minute env.now)) env.fuel 0 =
          some nm →
      (((∃ t, Event.symlink t (InkRoot.link_of b) ∈ (InkRoot._make_backups_incremental env b).trace) ↔
          env.exitCode (join_args (InkRoot.inc_cmd env b nm)) = 0)
        ∧ (env.exitCode (join_args (InkRoot.inc_cmd env b nm)) = 0 →
            (InkRoot._make_backups_incremental env b).result = Except.ok ()
            ∧ ∃ pre, (InkRoot._make_backups_incremental env b).trace =
                pre ++ (_replace_symlink env (InkRoot.link_of b) nm).trace)
        ∧ (¬ env.exitCode (join_args (InkRoot.inc_cmd env b nm)) = 0 →
            (InkRoot._make_backups_incremental env b).result =
              Except.error (PyErr.runtimeError "Shell command failed.")
            ∧ (∀ p, Event.unlink p ∉ (InkRoot._make_backups_incremental env b).trace)
            ∧ (∀ t l, Event.symlink t l ∉ (InkRoot._make_backups_incremental env b).trace)))
      ∧ (((∃ t, Event.symlink t (InkRoot.link_of b) ∈ (InkRoot._make_backups_nolinks env b).trace) ↔
          env.exitCode (join_args (InkRoot.bak_cmd env b nm)) = 0)
        ∧ (env.exitCode (join_args (InkRoot.bak_cmd env b nm)) = 0 →
            (InkRoot._make_backups_nolinks env b).result = Except.ok ()
            ∧ ∃ pre, (InkRoot._make_backups_nolinks env b).trace =
                pre ++ (_replace_symlink env (InkRoot.link_of b) nm).trace)
        ∧ (¬ env.exitCode (join_args (InkRoot.bak_cmd env b nm)) = 0 →
            (InkRoot._make_backups_nolinks env b).result =
              Except.error (PyErr.runtimeError "Shell command failed.")
            ∧ (∀ p, Event.unlink p ∉ (InkRoot._make_backups_nolinks env b).trace)
            ∧ (∀ t l, Event.symlink t l ∉ (InkRoot._make_backups_nolinks env b).trace)
            ∧ (env.isdir (InkRoot.link_of b) = true →
                Event.rename (env.realpath (InkRoot.link_of b)) nm ∈
                  (InkRoot._make_backups_nolinks env b).trace)))
      ∧ (((∃ t, Event.symlink t (InkRoot.link_of b) ∈ (InkRoot._make_backups_full env b).trace) ↔
          env.exitCode (join_args (InkRoot.full_cmd env b nm)) = 0)
        ∧ (env.exitCode (join_args (InkRoot.full_cmd env b nm)) = 0 →
            (InkRoot._make_backups_full env b).result = Except.ok ()
            ∧ ∃ pre, (InkRoot._make_backups_full env b).trace =
                pre ++ (_replace_symlink env (InkRoot.link_of b) nm).trace)
        ∧ (¬ env.exitCode (join_args (InkRoot.full_cmd env b nm)) = 0 →
            (InkRoot._make_backups_full env b).result =
              Except.error (PyErr.runtimeError "Shell command failed.")
            ∧ (∀ p, Event.unlink p ∉ (InkRoot._make_backups_full env b).trace)
            ∧ (∀ t l, Event.symlink t l ∉ (InkRoot._make_backups_full env b).trace))) := by
  intro env b nm hlog hnm
  have hinc := incremental_run_eq env b nm hlog hnm
  have hnol := nolinks_run_eq env b nm hnm
  have hful := full_run_eq env b nm hnm
  refine ⟨⟨?_, ?_, ?_⟩, ⟨?_, ?_, ?_⟩, ⟨?_, ?_, ?_⟩⟩
  · constructor
    · rintro ⟨t, ht⟩
      by_contra hexit
      rw [hinc] at ht
      by_cases hfs : env.pathExists (rebase_target b.rebase_root b.to_backup nm) = true <;>
        simp [make_target_folder, hexit, hfs] at ht
    · intro hexit
      refine ⟨ospath_relpath nm (ospath_dirname (InkRoot.link_of b)), ?_⟩
      rw [hinc]
      by_cases hlex : env.linkExists (InkRoot.link_of b) = true <;>
        simp [_replace_symlink, hexit, hlex]
  · intro hexit
    rw [hinc]
    exact ⟨by simp [hexit],
      ⟨[Event.mkdir nm] ++ (make_target_folder env b.rebase_root b.to_backup nm).trace ++
        [Event.shell (join_args (InkRoot.inc_cmd env b nm))], by simp [hexit, List.append_assoc]⟩⟩
  · intro hexit
    rw [hinc]
    refine ⟨by simp [hexit], ?_, ?_⟩
    · intro p
      by_cases hfs : env.pathExists (rebase_target b.rebase_root b.to_backup nm) = true <;>
        simp [make_target_folder, hexit, hfs]
    · intro t l
      by_cases hfs : env.pathExists (rebase_target b.rebase_root b.to_backup nm) = true <;>
        simp [make_target_folder, hexit, hfs]
  · constructor
    · rintro ⟨t, ht⟩
      by_contra hexit
      rw [hnol] at ht
      by_cases hfs : env.pathExists (rebase_target b.rebase_root b.to_backup nm) = true <;>
        by_cases hdir : env.isdir (InkRoot.link_of b) = true <;>
        by_cases hfs2 : env.pathExists (rebase_target b.rebase_root b.to_backup
          (env.realpath (InkRoot.link_of b) ++ "_bak")) = true <;>
        simp [make_target_folder, hexit, hfs, hdir, hfs2] at ht
    · intro hexit
      refine ⟨ospath_relpath nm (ospath_dirname (InkRoot.link_of b)), ?_⟩
      rw [hnol]
      by_cases hlex : env.linkExists (InkRoot.link_of b) = true <;>
        simp [_replace_symlink, hexit, hlex]
  · intro hexit
    rw [hnol]
    refine ⟨by simp [hexit], ?_⟩
    refine ⟨[Event.mkdir nm] ++ (make_target_folder env b.rebase_root b.to_backup nm).trace ++
      (if env.isdir (InkRoot.link_of b) then
        [Event.rmtree nm, Event.rename (env.realpath (InkRoot.link_of b)) nm,
          Event.mkdir (env.realpath (InkRoot.link_of b) ++ "_bak")] ++
        (make_target_folder env b.rebase_root b.to_backup
          (env.realpath (InkRoot.link_of b) ++ "_bak")).trace
      else []) ++
      [Event.shell (join_args (InkRoot.bak_cmd env b nm))], ?_⟩
    simp [hexit, List.append_assoc]
  · intro hexit
    rw [hnol]
    refine ⟨by simp [hexit], ?_, ?_, ?_⟩
    · intro p
      by_cases hfs : env.pathExists (rebase_target b.rebase_root b.to_backup nm) = true <;>
        by_cases hdir : env.isdir (InkRoot.link_of b) = true <;>
        by_cases hfs2 : env.pathExists (rebase_target b.rebase_root b.to_backup
          (env.realpath (InkRoot.link_of b) ++ "_bak")) = true <;>
        simp [make_target_folder, hexit, hfs, hdir, hfs2]
    · intro t l
      by_cases hfs : env.pathExists (rebase_target b.rebase_root b.to_backup nm) = true <;>
        by_cases hdir : env.isdir (InkRoot.link_of b) = true <;>
        by_cases hfs2 : env.pathExists (rebase_target b.rebase_root b.to_backup
          (env.realpath (InkRoot.link_of b) ++ "_bak")) = true <;>
        simp [make_target_folder, hexit, hfs, hdir, hfs2]
    · intro hdir
      simp [hexit, hdir]
  · constructor
    · rintro ⟨t, ht⟩
      by_contra hexit
      rw [hful] at ht
      by_cases hfs : env.pathExists (rebase_target b.rebase_root b.to_backup nm) = true <;>
        simp [make_target_folder, hexit, hfs] at ht
    · intro hexit
      refine ⟨ospath_relpath nm (ospath_dirname (InkRoot.link_of b)), ?_⟩
      rw [hful]
      by_cases hlex : env.linkExists (InkRoot.link_of b) = true <;>
        simp [_replace_symlink, hexit, hlex]
  · intro hexit
    rw [hful]
    exact ⟨by simp [hexit],
      ⟨[Event.mkdir nm] ++ (make_target_folder env b.rebase_root b.to_backup nm).trace ++
        [Event.shell (join_args (InkRoot.full_cmd env b nm))], by simp [hexit, List.append_assoc]⟩⟩
  · intro hexit
    rw [hful]
    refine ⟨by simp [hexit], ?_, ?_⟩
    · intro p
      by_cases hfs : env.pathExists (rebase_target b.rebase_root b.to_backup nm) = true <;>
        simp [make_target_folder, hexit, hfs]
    · intro t l
      by_cases hfs : env.pathExists (rebase_target b.rebase_root b.to_backup nm) = true <;>
        simp [make_target_folder, hexit, hfs]

/-- Witness for C7: under a benign world the incremental run succeeds and its
trace ends with the link replacement; under a world where every tool exits 1
the run raises RuntimeError and no unlink or symlink event occurs. -/
theorem c7_witness :
    ((InkRoot._make_backups_incremental env_ok rjob).result = Except.ok ()
      ∧ ∃ pre, (InkRoot._make_backups_incremental env_ok rjob).trace =
          pre ++ (_replace_symlink env_ok (InkRoot.link_of rjob) "/bk/backup-2026-01-02T03:04").trace)
    ∧ ((InkRoot._make_backups_incremental env_fail rjob).result =
          Except.error (PyErr.runtimeError "Shell command failed.")
      ∧ (∀ p, Event.unlink p ∉ (InkRoot._make_backups_incremental env_fail rjob).trace)
      ∧ (∀ t l, Event.symlink t l ∉ (InkRoot._make_backups_incremental env_fail rjob).trace)) :=
  ⟨(c7_symlink_iff_copy_ok env_ok rjob "/bk/backup-2026-01-02T03:04" rfl (by decide)).1.2.1 rfl,
   (c7_symlink_iff_copy_ok env_fail rjob "/bk/backup-2026-01-02T03:04" rfl (by decide)).1.2.2
     (by decide)⟩
